import Mathlib

/-!
Verification of the lite-mysql-orm query builder and execution layer
(src/ORM.js, src/BaseModel.js, src/utils/Helper.js).

The JavaScript source is shallowly embedded: the mutable `QueryBuilder`
instance becomes a value of a `QueryBuilder` structure that every clause
builder maps to a new value; the mysql2 pool/connection is an opaque
executor capability (a function from SQL text and positional parameters
to a driver result or a driver error); `async` control flow becomes
explicit `Except` values; JavaScript runtime values are restricted to the
scalar domain the library manipulates (`Value`).
-/

/-- JavaScript runtime values as they occur in this library: `null`,
`undefined`, integral numbers, `NaN`, strings and booleans. -/
inductive Value where
  | vNull
  | vUndefined
  | vInt (n : Int)
  | vNaN
  | vStr (s : String)
  | vBool (b : Bool)
deriving DecidableEq, Repr

/-- A JavaScript number that may be `NaN` (the possible results of
`parseInt`). -/
inductive JsNum where
  | nan
  | int (n : Int)
deriving DecidableEq, Repr

/-- JavaScript truthiness on the value domain: `null`, `undefined`,
`NaN`, `0`, the empty string and `false` are falsy. -/
def Value.truthy : Value → Bool
  | .vNull => false
  | .vUndefined => false
  | .vNaN => false
  | .vInt n => n != 0
  | .vStr s => s != ""
  | .vBool b => b

/-- JavaScript string coercion (template-literal interpolation) on the
value domain. -/
def Value.jsToString : Value → String
  | .vNull => "null"
  | .vUndefined => "undefined"
  | .vInt n => Int.repr n
  | .vNaN => "NaN"
  | .vStr s => s
  | .vBool b => if b then "true" else "false"

/-- Leading decimal digits of a character list. -/
def takeDigits (l : List Char) : List Char :=
  l.takeWhile fun c => c.isDigit

/-- Decimal value of a digit list. -/
def digitsToNat (l : List Char) : Nat :=
  l.foldl (fun a c => a * 10 + (c.toNat - ('0').toNat)) 0

/-- Model of JavaScript `parseInt` on a string: skip leading spaces, an
optional sign, then the longest digit run; `NaN` when no digit follows. -/
def parseIntStr (s : String) : JsNum :=
  match s.data.dropWhile (fun c => c = ' ') with
  | '-' :: rest =>
    match takeDigits rest with
    | [] => .nan
    | ds => .int (-(digitsToNat ds : Int))
  | '+' :: rest =>
    match takeDigits rest with
    | [] => .nan
    | ds => .int (digitsToNat ds)
  | l =>
    match takeDigits l with
    | [] => .nan
    | ds => .int (digitsToNat ds)

/-- `parseInt(v)` for an arbitrary value first coerces it to a string. -/
def jsParseInt (v : Value) : JsNum :=
  parseIntStr v.jsToString

/-- JavaScript `x || d` for a number `x` and integer default `d`:
`NaN` and `0` are falsy and give the default. -/
def jsNumOr (x : JsNum) (d : Int) : Int :=
  match x with
  | .nan => d
  | .int 0 => d
  | .int n => n

/-- Rendering of a number into SQL text by template-literal
interpolation. -/
def renderNum : JsNum → String
  | .nan => "NaN"
  | .int n => Int.repr n

/-- Number of `?` placeholder characters in a string. -/
def countQ (s : String) : Nat :=
  s.data.count '?'

/-- Model of JavaScript `Array.prototype.join(sep)`. -/
def joinSep (sep : String) : List String → String
  | [] => ""
  | [a] => a
  | a :: rest => a ++ sep ++ joinSep sep rest

/-- A result row: an ordered field-to-value mapping. -/
abbrev Row : Type := List (String × Value)

/-- Property access `row.key`: `undefined` when the field is absent. -/
def rowGet (r : Row) (k : String) : Value :=
  match List.lookup k r with
  | some v => v
  | none => .vUndefined

/-- Errors surfaced to callers: plain `Error` objects (with their
message) and `TypeError`s raised by the runtime itself. -/
inductive JsErr where
  | jsError (msg : String)
  | jsTypeError (msg : String)
deriving DecidableEq, Repr

/-- A join specification as stored by `QueryBuilder.join`:
`{ type, table, condition }`. -/
structure JoinSpec where
  type : String
  table : String
  condition : String
deriving DecidableEq, Repr

/-- The statement model: the `this.query` object installed by
`QueryBuilder.reset` (src/ORM.js lines 12-28). -/
structure Query where
  select : List String
  distinct : Bool
  whereConds : List String
  having : List String
  joins : List JoinSpec
  orderBy : List String
  groupBy : List String
  limit : Option JsNum
  offset : Option JsNum
  params : List Value
  aliasName : Option String
  lock : Option String
deriving DecidableEq, Repr

/-- The fresh statement produced by `reset()`. -/
def Query.initial : Query where
  select := ["*"]
  distinct := false
  whereConds := []
  having := []
  joins := []
  orderBy := []
  groupBy := []
  limit := none
  offset := none
  params := []
  aliasName := none
  lock := none

/-- A query-builder instance: the constructor stores the table name and
resets the statement (the connection capability is passed to the
execution functions explicitly). -/
structure QueryBuilder where
  table : String
  query : Query
deriving DecidableEq, Repr

/-- `new QueryBuilder(table, connection)`. -/
def QueryBuilder.new (table : String) : QueryBuilder :=
  ⟨table, Query.initial⟩

/-- Argument of `select`/`groupBy`: a single string or an array. -/
inductive Fields where
  | str (s : String)
  | arr (l : List String)
deriving DecidableEq, Repr

/-- `select(fields)`: an array replaces the column list entirely, a
string becomes a one-element column list. -/
def QueryBuilder.select (b : QueryBuilder) (fields : Fields) : QueryBuilder :=
  match fields with
  | .arr l => { b with query := { b.query with select := l } }
  | .str s => { b with query := { b.query with select := [s] } }

/-- First argument of `where`: a field name (string) or a mapping
object whose entries are taken in insertion order. -/
inductive WhereCond where
  | field (s : String)
  | obj (entries : List (String × Value))
deriving DecidableEq, Repr

/-- One entry of the `where` logic: `key IS NULL` for a nullish value,
otherwise `key = ?` plus one appended parameter. -/
def Query.whereEntry (q : Query) (key : String) (val : Value) : Query :=
  if val = .vNull ∨ val = .vUndefined then
    { q with whereConds := q.whereConds ++ [key ++ " IS NULL"] }
  else
    { q with whereConds := q.whereConds ++ [key ++ " = ?"],
             params := q.params ++ [val] }

/-- `where(condition, value = null)` (src/ORM.js lines 39-58). -/
def QueryBuilder.where_ (b : QueryBuilder) (condition : WhereCond)
    (value : Value) : QueryBuilder :=
  match condition with
  | .obj entries =>
    { b with query := entries.foldl (fun q kv => q.whereEntry kv.1 kv.2) b.query }
  | .field s =>
    { b with query := b.query.whereEntry s value }

/-- `orWhere` is an alias for `where` (pure AND semantics). -/
def QueryBuilder.orWhere (b : QueryBuilder) (condition : WhereCond)
    (value : Value) : QueryBuilder :=
  b.where_ condition value

/-- `whereRaw(condition, params = [])`. -/
def QueryBuilder.whereRaw (b : QueryBuilder) (condition : String)
    (params : List Value) : QueryBuilder :=
  { b with query := { b.query with
      whereConds := b.query.whereConds ++ [condition],
      params := b.query.params ++ params } }

/-- `whereIn(field, values)`: `none` models a nullish `values` argument
(the `values &&` guard); an empty array is skipped by the
`values.length > 0` guard. -/
def QueryBuilder.whereIn (b : QueryBuilder) (field : String)
    (values : Option (List Value)) : QueryBuilder :=
  match values with
  | some vs =>
    if vs.length > 0 then
      { b with query := { b.query with
          whereConds := b.query.whereConds ++
            [field ++ " IN (" ++ joinSep "," (vs.map fun _ => "?") ++ ")"],
          params := b.query.params ++ vs } }
    else b
  | none => b

/-- `whereNotIn(field, values)`. -/
def QueryBuilder.whereNotIn (b : QueryBuilder) (field : String)
    (values : Option (List Value)) : QueryBuilder :=
  match values with
  | some vs =>
    if vs.length > 0 then
      { b with query := { b.query with
          whereConds := b.query.whereConds ++
            [field ++ " NOT IN (" ++ joinSep "," (vs.map fun _ => "?") ++ ")"],
          params := b.query.params ++ vs } }
    else b
  | none => b

/-- `whereBetween(field, from, to)`: skipped when either bound is
`undefined` (a `null` bound passes the `!== undefined` check). -/
def QueryBuilder.whereBetween (b : QueryBuilder) (field : String)
    (lo hi : Value) : QueryBuilder :=
  if lo ≠ .vUndefined ∧ hi ≠ .vUndefined then
    { b with query := { b.query with
        whereConds := b.query.whereConds ++ [field ++ " BETWEEN ? AND ?"],
        params := b.query.params ++ [lo, hi] } }
  else b

/-- `whereLike(field, value)`: guarded by JavaScript truthiness of
`value`; the bound parameter is the template literal string
interpolating the value between two percent signs. -/
def QueryBuilder.whereLike (b : QueryBuilder) (field : String)
    (value : Value) : QueryBuilder :=
  if value.truthy then
    { b with query := { b.query with
        whereConds := b.query.whereConds ++ [field ++ " LIKE ?"],
        params := b.query.params ++ [.vStr ("%" ++ value.jsToString ++ "%")] } }
  else b

/-- `whereNull(field)`. -/
def QueryBuilder.whereNull (b : QueryBuilder) (field : String) : QueryBuilder :=
  { b with query := { b.query with
      whereConds := b.query.whereConds ++ [field ++ " IS NULL"] } }

/-- `whereNotNull(field)`. -/
def QueryBuilder.whereNotNull (b : QueryBuilder) (field : String) : QueryBuilder :=
  { b with query := { b.query with
      whereConds := b.query.whereConds ++ [field ++ " IS NOT NULL"] } }

/-- `orderBy(field, direction = ASC)`: any case-insensitive `desc`
normalizes to `DESC`, everything else to `ASC`. -/
def QueryBuilder.orderBy (b : QueryBuilder) (field : String)
    (direction : String) : QueryBuilder :=
  let dir := if direction.toUpper = "DESC" then "DESC" else "ASC"
  { b with query := { b.query with
      orderBy := b.query.orderBy ++ [field ++ " " ++ dir] } }

/-- `groupBy(fields)`: an array appends all fields, a string appends
one. -/
def QueryBuilder.groupBy (b : QueryBuilder) (fields : Fields) : QueryBuilder :=
  match fields with
  | .arr l => { b with query := { b.query with groupBy := b.query.groupBy ++ l } }
  | .str s => { b with query := { b.query with groupBy := b.query.groupBy ++ [s] } }

/-- `limit(num)`: stores `parseInt(num)` unconditionally. -/
def QueryBuilder.limit (b : QueryBuilder) (num : Value) : QueryBuilder :=
  { b with query := { b.query with limit := some (jsParseInt num) } }

/-- `offset(num)`: stores `parseInt(num)` unconditionally. -/
def QueryBuilder.offset (b : QueryBuilder) (num : Value) : QueryBuilder :=
  { b with query := { b.query with offset := some (jsParseInt num) } }

/-- `join(table, condition, type = INNER)`. -/
def QueryBuilder.join (b : QueryBuilder) (table condition : String)
    (type : String) : QueryBuilder :=
  { b with query := { b.query with
      joins := b.query.joins ++ [⟨type, table, condition⟩] } }

/-- `leftJoin(table, condition)`. -/
def QueryBuilder.leftJoin (b : QueryBuilder) (table condition : String) :
    QueryBuilder :=
  b.join table condition "LEFT"

/-- `innerJoin(table, condition)`. -/
def QueryBuilder.innerJoin (b : QueryBuilder) (table condition : String) :
    QueryBuilder :=
  b.join table condition "INNER"

/-- The clause-builder `paginate(page = 1, perPage = 10)` written at
src/ORM.js lines 152-158. In the class body a second method named
`paginate` (the async terminal, lines 254-267) is defined later; under
JavaScript class semantics the later definition overwrites this one on
the prototype, so this version is unreachable through method dispatch.
It is kept here as the formula the specification describes. -/
def QueryBuilder.paginateFirstDef (b : QueryBuilder)
    (page perPage : Value) : QueryBuilder :=
  let pageNum := max 1 (jsNumOr (jsParseInt page) 1)
  let limitNum := max 1 (jsNumOr (jsParseInt perPage) 10)
  { b with query := { b.query with
      limit := some (.int limitNum),
      offset := some (.int ((pageNum - 1) * limitNum)) } }

/-- `_buildWhere()`. -/
def QueryBuilder.buildWhere (b : QueryBuilder) : String :=
  if b.query.whereConds.length = 0 then ""
  else "WHERE " ++ joinSep " AND " b.query.whereConds

/-- `_buildJoins()`. -/
def QueryBuilder.buildJoins (b : QueryBuilder) : String :=
  if b.query.joins.length = 0 then ""
  else joinSep " "
    (b.query.joins.map fun j => j.type ++ " JOIN " ++ j.table ++ " ON " ++ j.condition)

/-- `build()`: the SQL renderer (src/ORM.js lines 173-212), following
the source's concatenation order exactly.  String truthiness guards
(`if (joinsClause)`, `if (whereClause)`, `if (this.query.lock)`) become
emptiness checks. -/
def QueryBuilder.build (b : QueryBuilder) : String × List Value :=
  let sql0 := "SELECT " ++ (if b.query.distinct then "DISTINCT " else "")
  let sql1 := sql0 ++ joinSep ", " b.query.select ++ " FROM " ++ b.table
  let joinsClause := b.buildJoins
  let sql2 := if joinsClause = "" then sql1 else sql1 ++ " " ++ joinsClause
  let whereClause := b.buildWhere
  let sql3 := if whereClause = "" then sql2 else sql2 ++ " " ++ whereClause
  let sql4 :=
    if b.query.groupBy.length > 0 then
      sql3 ++ " GROUP BY " ++ joinSep ", " b.query.groupBy
    else sql3
  let sql5 :=
    if b.query.orderBy.length > 0 then
      sql4 ++ " ORDER BY " ++ joinSep ", " b.query.orderBy
    else sql4
  let sql6 :=
    match b.query.limit with
    | none => sql5
    | some n =>
      let withLimit := sql5 ++ " LIMIT " ++ renderNum n
      match b.query.offset with
      | none => withLimit
      | some m => withLimit ++ " OFFSET " ++ renderNum m
  let sql7 :=
    match b.query.lock with
    | none => sql6
    | some lk => if lk = "" then sql6 else sql6 ++ " " ++ lk
  (sql7, b.query.params)

/-- The connection capability for row-returning queries: SQL text and
positional parameters to a row set, or a driver error (propagated
untouched). -/
def ExecQ : Type := String → List Value → Except JsErr (List Row)

/-- The driver result object of a mutating statement. -/
structure MutResult where
  insertId : Int
  affectedRows : Int
  changedRows : Int
deriving DecidableEq, Repr

/-- The connection capability for mutating statements. -/
def ExecM : Type := String → List Value → Except JsErr MutResult

/-- `execute()`: render, then run through the connection. -/
def QueryBuilder.execute (b : QueryBuilder) (exec : ExecQ) :
    Except JsErr (List Row) :=
  let (sql, params) := b.build
  exec sql params

/-- `findOne()`: force `LIMIT 1`, execute, return the first row or
`null`. `none` models the `null` result. -/
def QueryBuilder.findOne (b : QueryBuilder) (exec : ExecQ) :
    Except JsErr (Option Row) × QueryBuilder :=
  let b1 := b.limit (.vInt 1)
  match b1.execute exec with
  | .error e => (.error e, b1)
  | .ok rows => (.ok rows.head?, b1)

/-- `find()`. -/
def QueryBuilder.find (b : QueryBuilder) (exec : ExecQ) :
    Except JsErr (List Row) :=
  b.execute exec

/-- `count()` (src/ORM.js lines 230-236): saves the column list,
substitutes the aggregate expression, executes, then writes the saved
list back and extracts `parseInt(result.count)`.  The write-back line
sits after the `await` with no `try`/`finally`, so when the execution
rejects the builder is left holding the substituted column list; the
returned builder is the instance state after the call. -/
def QueryBuilder.count (b : QueryBuilder) (exec : ExecQ) :
    Except JsErr JsNum × QueryBuilder :=
  let originalSelect := b.query.select
  let b1 := { b with query := { b.query with select := ["COUNT(*) as count"] } }
  match b1.execute exec with
  | .error e => (.error e, b1)
  | .ok rows =>
    let b2 := { b1 with query := { b1.query with select := originalSelect } }
    match rows.head? with
    | none => (.ok (.int 0), b2)
    | some r => (.ok (jsParseInt (rowGet r "count")), b2)

/-- `sum(field)` (src/ORM.js lines 238-244): same save/substitute/
restore pattern with `SUM(field) as total` and
`parseFloat(result.total) || 0` (on the integer-valued domain of this
model `parseFloat` agrees with `parseInt`). -/
def QueryBuilder.sum (b : QueryBuilder) (field : String) (exec : ExecQ) :
    Except JsErr Int × QueryBuilder :=
  let originalSelect := b.query.select
  let b1 := { b with query := { b.query with
      select := ["SUM(" ++ field ++ ") as total"] } }
  match b1.execute exec with
  | .error e => (.error e, b1)
  | .ok rows =>
    let b2 := { b1 with query := { b1.query with select := originalSelect } }
    match rows.head? with
    | none => (.ok 0, b2)
    | some r => (.ok (jsNumOr (jsParseInt (rowGet r "total")) 0), b2)

/-- `avg(field)` (src/ORM.js lines 246-252). -/
def QueryBuilder.avg (b : QueryBuilder) (field : String) (exec : ExecQ) :
    Except JsErr Int × QueryBuilder :=
  let originalSelect := b.query.select
  let b1 := { b with query := { b.query with
      select := ["AVG(" ++ field ++ ") as average"] } }
  match b1.execute exec with
  | .error e => (.error e, b1)
  | .ok rows =>
    let b2 := { b1 with query := { b1.query with select := originalSelect } }
    match rows.head? with
    | none => (.ok 0, b2)
    | some r => (.ok (jsNumOr (jsParseInt (rowGet r "average")) 0), b2)

/-- The shape of the value the async `paginate` is written to resolve
with. -/
structure PaginateResult where
  data : List Row
  total : JsNum
  page : Value
  perPage : Value
  totalPages : Int
deriving Repr

/-- The async terminal `paginate(page = 1, perPage = 10)` (src/ORM.js
lines 254-267).  Being the later definition of the name `paginate` in
the class body, it is the one method dispatch reaches.  After `await
this.count()`, the expression `this.paginate(page, perPage)` resolves
to this same async method, so it evaluates to a Promise; a Promise has
no `find` member, hence invoking `.find()` raises a TypeError in the
awaiting caller.  (The recursively started call keeps issuing further
count queries in the background; only the caller-visible outcome is
modelled.) -/
def QueryBuilder.paginate (b : QueryBuilder) (_page _perPage : Value)
    (exec : ExecQ) : Except JsErr PaginateResult × QueryBuilder :=
  match b.count exec with
  | (.error e, b1) => (.error e, b1)
  | (.ok _total, b1) =>
    (.error (.jsTypeError "this.paginate(...).find is not a function"), b1)

/-- The two definitions of the method name `paginate` in the
`QueryBuilder` class body, in source order. -/
inductive PaginateImpl where
  | clauseBuilder
  | asyncTerminal
deriving DecidableEq, Repr

/-- Source order of the two `paginate` definitions (lines 152 and
254). -/
def paginateClassBodyDefs : List PaginateImpl :=
  [.clauseBuilder, .asyncTerminal]

/-- JavaScript class semantics: for a repeated method name, the later
definition overwrites the earlier one on the prototype, so dispatch
reaches only the last one. -/
def dispatchedPaginate : Option PaginateImpl :=
  paginateClassBodyDefs.getLast?

/-- The process-wide pool handle: only its presence matters to this
layer. -/
def Pool : Type := Unit

/-- The `ORM not initialized` error message. -/
def uninitMsg : String := "ORM not initialized. Call ORM.init(config) first."

/-- The TypeError the runtime raises when `this.pool.promise()` is
evaluated while `this.pool` is `null`. -/
def nullPoolMsg : String := "Cannot read properties of null (reading promise)"

/-- `ORM.table(tableName)`: explicit uninitialized check, then a fresh
builder over the pool connection. -/
def ORM.table (pool : Option Pool) (tableName : String) :
    Except JsErr QueryBuilder :=
  match pool with
  | none => .error (.jsError uninitMsg)
  | some _ => .ok (QueryBuilder.new tableName)

/-- `ORM.query(sql, params = [])`: explicit uninitialized check; driver
errors are logged and rethrown unchanged. -/
def ORM.query (pool : Option Pool) (exec : ExecQ) (sql : String)
    (params : List Value) : Except JsErr (List Row) :=
  match pool with
  | none => .error (.jsError uninitMsg)
  | some _ => exec sql params

/-- The value `ORM.insert` resolves with: the driver identifiers merged
with the supplied data (`{ insertId, affectedRows, ...data }`). -/
structure InsertResult where
  insertId : Int
  affectedRows : Int
  data : List (String × Value)
deriving DecidableEq, Repr

/-- `ORM.insert(table, data)` (src/ORM.js lines 318-331): no
uninitialized check — with a `null` pool the `this.pool.promise()`
access itself raises a TypeError (after the SQL text is built). -/
def ORM.insert (pool : Option Pool) (exec : ExecM) (table : String)
    (data : List (String × Value)) : Except JsErr InsertResult :=
  let keys := data.map Prod.fst
  let values := data.map Prod.snd
  let placeholders := joinSep ", " (keys.map fun _ => "?")
  let sql := "INSERT INTO " ++ table ++ " (" ++ joinSep ", " keys ++
    ") VALUES (" ++ placeholders ++ ")"
  match pool with
  | none => .error (.jsTypeError nullPoolMsg)
  | some _ =>
    match exec sql values with
    | .error e => .error e
    | .ok r => .ok ⟨r.insertId, r.affectedRows, data⟩

/-- The value `ORM.update` resolves with. -/
structure UpdateResult where
  affectedRows : Int
  changedRows : Int
deriving DecidableEq, Repr

/-- `ORM.update(table, data, conditions)` (src/ORM.js lines 333-349):
renders `UPDATE table SET k = ?, ... WHERE k = ? AND ...` and sends it;
there is no condition-emptiness validation, so empty conditions yield a
statement ending in `WHERE ` (trailing space, empty clause) that is
still handed to the connection. -/
def ORM.update (pool : Option Pool) (exec : ExecM) (table : String)
    (data conditions : List (String × Value)) : Except JsErr UpdateResult :=
  let setClause := joinSep ", " (data.map fun kv => kv.1 ++ " = ?")
  let whereClause := joinSep " AND " (conditions.map fun kv => kv.1 ++ " = ?")
  let sql := "UPDATE " ++ table ++ " SET " ++ setClause ++ " WHERE " ++ whereClause
  let params := data.map Prod.snd ++ conditions.map Prod.snd
  match pool with
  | none => .error (.jsTypeError nullPoolMsg)
  | some _ =>
    match exec sql params with
    | .error e => .error e
    | .ok r => .ok ⟨r.affectedRows, r.changedRows⟩

/-- The value `ORM.delete` resolves with. -/
structure DeleteResult where
  affectedRows : Int
deriving DecidableEq, Repr

/-- `ORM.delete(table, conditions)` (src/ORM.js lines 351-361): same
shape as `update`, again with no condition-emptiness validation. -/
def ORM.delete (pool : Option Pool) (exec : ExecM) (table : String)
    (conditions : List (String × Value)) : Except JsErr DeleteResult :=
  let whereClause := joinSep " AND " (conditions.map fun kv => kv.1 ++ " = ?")
  let sql := "DELETE FROM " ++ table ++ " WHERE " ++ whereClause
  match pool with
  | none => .error (.jsTypeError nullPoolMsg)
  | some _ =>
    match exec sql (conditions.map Prod.snd) with
    | .error e => .error e
    | .ok r => .ok ⟨r.affectedRows⟩

/-- `ORM.close()` (src/ORM.js lines 385-391): ends the pool and nulls
the handle when one exists, otherwise does nothing.  Returns the new
handle and whether `pool.end()` was invoked. -/
def ORM.close (pool : Option Pool) : Option Pool × Bool :=
  match pool with
  | some _ => (none, true)
  | none => (pool, false)

/-- Observable operations on the dedicated transaction connection, in
invocation order. -/
inductive TxEvent where
  | beginTx
  | runCb
  | commitTx
  | rollbackTx
  | releaseTx
deriving DecidableEq, Repr, BEq

/-- `ORM.transaction(callback)` (src/ORM.js lines 363-382), modelled
from the point where the dedicated connection has been acquired.  Each
awaited step is an oracle outcome: `beginO` for
`connection.beginTransaction()`, `cbO` for `callback(connection)`,
`commitO` for `connection.commit()` and `rollbackO` for
`connection.rollback()`.  The `try` body runs begin, the callback and
commit in order; any rejection enters the `catch` block, which awaits
rollback (a rollback rejection replaces the propagated error); the
`finally` block appends `release` last on every path.  Returns the
settled outcome together with the ordered event trace. -/
def ORM.transaction {E A : Type} (beginO : Except E Unit) (cbO : Except E A)
    (commitO : Except E Unit) (rollbackO : Except E Unit) :
    Except E A × List TxEvent :=
  let tryBody : Except E A × List TxEvent :=
    match beginO with
    | .error e => (.error e, [.beginTx])
    | .ok _ =>
      match cbO with
      | .error e => (.error e, [.beginTx, .runCb])
      | .ok v =>
        match commitO with
        | .error e => (.error e, [.beginTx, .runCb, .commitTx])
        | .ok _ => (.ok v, [.beginTx, .runCb, .commitTx])
  let caught : Except E A × List TxEvent :=
    match tryBody with
    | (.ok v, evs) => (.ok v, evs)
    | (.error e, evs) =>
      match rollbackO with
      | .ok _ => (.error e, evs ++ [.rollbackTx])
      | .error e2 => (.error e2, evs ++ [.rollbackTx])
  (caught.1, caught.2 ++ [.releaseTx])

/-- Placeholder characters distribute over string append. -/
theorem countQ_append (a b : String) : countQ (a ++ b) = countQ a + countQ b := by
  simp [countQ, String.data_append, List.count_append]

/-- The empty string holds no placeholder. -/
theorem countQ_empty : countQ "" = 0 := rfl

/-- `Array.join` with a placeholder-free separator contributes exactly
the placeholders of its pieces. -/
theorem countQ_joinSep (sep : String) (hsep : countQ sep = 0) :
    ∀ l : List String, countQ (joinSep sep l) = (l.map countQ).sum := by
  intro l
  induction l with
  | nil => simp [joinSep, countQ_empty]
  | cons a rest ih =>
    cases rest with
    | nil => simp [joinSep]
    | cons b r =>
      simp only [joinSep, List.map_cons, List.sum_cons] at ih ⊢
      rw [countQ_append, countQ_append, hsep, ih]
      omega

/-- A join of placeholder-free pieces is placeholder-free. -/
theorem countQ_joinSep_zero (sep : String) (hsep : countQ sep = 0)
    (l : List String) (h : ∀ s ∈ l, countQ s = 0) :
    countQ (joinSep sep l) = 0 := by
  rw [countQ_joinSep sep hsep]
  induction l with
  | nil => simp
  | cons a rest ih =>
    simp only [List.map_cons, List.sum_cons]
    rw [h a (by simp), ih (fun s hs => h s (by simp [hs]))]

/-- Decimal digit characters are never the placeholder character. -/
theorem digitChar_ne_placeholder (n : Nat) : Nat.digitChar n ≠ '?' := by
  by_cases h : n < 16
  · interval_cases n <;> decide
  · have h16 : Nat.digitChar n = '*' := by
      unfold Nat.digitChar
      repeat rw [if_neg (by omega)]
    rw [h16]; decide

/-- `Nat.toDigitsCore` never emits the placeholder character. -/
theorem toDigitsCore_no_placeholder :
    ∀ (fuel base n : Nat) (acc : List Char), ('?') ∉ acc →
      ('?') ∉ Nat.toDigitsCore base fuel n acc := by
  intro fuel
  induction fuel with
  | zero => intro base n acc hacc; simpa [Nat.toDigitsCore] using hacc
  | succ f ih =>
    intro base n acc hacc
    unfold Nat.toDigitsCore
    dsimp only
    have hd : ('?') ∉ Nat.digitChar (n % base) :: acc := by
      intro hmem
      rcases List.mem_cons.mp hmem with h | h
      · exact digitChar_ne_placeholder (n % base) h.symm
      · exact hacc h
    split
    · exact hd
    · exact ih base (n / base) (Nat.digitChar (n % base) :: acc) hd

/-- Natural-number text holds no placeholder. -/
theorem countQ_natRepr (n : Nat) : countQ (Nat.repr n) = 0 := by
  have h : ('?') ∉ Nat.toDigits 10 n :=
    toDigitsCore_no_placeholder (n + 1) 10 n [] (by simp)
  simp only [countQ, Nat.repr, Nat.toDigits, List.asString]
  exact List.count_eq_zero.mpr (by simpa [Nat.toDigits] using h)

/-- Integer text holds no placeholder. -/
theorem countQ_intRepr (n : Int) : countQ (Int.repr n) = 0 := by
  cases n with
  | ofNat m => simpa [Int.repr] using countQ_natRepr m
  | negSucc m =>
    have : countQ ("-" ++ Nat.repr (m + 1)) = 0 := by
      rw [countQ_append, countQ_natRepr]
      decide
    simpa [Int.repr] using this

/-- Rendered numbers (including `NaN`) hold no placeholder. -/
theorem countQ_renderNum (n : JsNum) : countQ (renderNum n) = 0 := by
  cases n with
  | nan => rfl
  | int m => simpa [renderNum] using countQ_intRepr m

/-- One clause-builder call, as the claimable surface of the fluent
API. -/
inductive Op where
  | select (f : Fields)
  | where_ (c : WhereCond) (v : Value)
  | orWhere (c : WhereCond) (v : Value)
  | whereRaw (cond : String) (ps : List Value)
  | whereIn (f : String) (vs : Option (List Value))
  | whereNotIn (f : String) (vs : Option (List Value))
  | whereBetween (f : String) (lo hi : Value)
  | whereLike (f : String) (v : Value)
  | whereNull (f : String)
  | whereNotNull (f : String)
  | orderBy (f : String) (dir : String)
  | groupBy (f : Fields)
  | limit (v : Value)
  | offset (v : Value)
  | join (t c ty : String)
  | leftJoin (t c : String)
  | innerJoin (t c : String)
deriving DecidableEq

/-- Dispatch of one chained call on a builder. -/
def applyOp (b : QueryBuilder) : Op → QueryBuilder
  | .select f => b.select f
  | .where_ c v => b.where_ c v
  | .orWhere c v => b.orWhere c v
  | .whereRaw cond ps => b.whereRaw cond ps
  | .whereIn f vs => b.whereIn f vs
  | .whereNotIn f vs => b.whereNotIn f vs
  | .whereBetween f lo hi => b.whereBetween f lo hi
  | .whereLike f v => b.whereLike f v
  | .whereNull f => b.whereNull f
  | .whereNotNull f => b.whereNotNull f
  | .orderBy f dir => b.orderBy f dir
  | .groupBy f => b.groupBy f
  | .limit v => b.limit v
  | .offset v => b.offset v
  | .join t c ty => b.join t c ty
  | .leftJoin t c => b.leftJoin t c
  | .innerJoin t c => b.innerJoin t c

/-- A chain of builder calls applied in order. -/
def applyOps (b : QueryBuilder) (ops : List Op) : QueryBuilder :=
  ops.foldl applyOp b

/-- A string free of placeholder characters. -/
def strNoQ (s : String) : Bool :=
  countQ s == 0

/-- All field names of a `select`/`groupBy` argument are
placeholder-free. -/
def fieldsNoQ : Fields → Bool
  | .str s => strNoQ s
  | .arr l => l.all strNoQ

/-- All keys of a `where` condition are placeholder-free. -/
def condKeysNoQ : WhereCond → Bool
  | .field s => strNoQ s
  | .obj es => es.all fun kv => strNoQ kv.1

/-- Well-formed call: a raw fragment declares exactly as many
placeholders as it supplies parameters, and every caller-chosen
identifier (field, table, join condition, join kind) holds no stray
placeholder character. -/
def Op.wf : Op → Bool
  | .select f => fieldsNoQ f
  | .where_ c _ => condKeysNoQ c
  | .orWhere c _ => condKeysNoQ c
  | .whereRaw cond ps => countQ cond == ps.length
  | .whereIn f _ => strNoQ f
  | .whereNotIn f _ => strNoQ f
  | .whereBetween f _ _ => strNoQ f
  | .whereLike f _ => strNoQ f
  | .whereNull f => strNoQ f
  | .whereNotNull f => strNoQ f
  | .orderBy f _ => strNoQ f
  | .groupBy f => fieldsNoQ f
  | .limit _ => true
  | .offset _ => true
  | .join t c ty => strNoQ t && strNoQ c && strNoQ ty
  | .leftJoin t c => strNoQ t && strNoQ c
  | .innerJoin t c => strNoQ t && strNoQ c

/-- The renderer invariant: the placeholders of the accumulated WHERE
fragments match the parameter list one for one, and every other clause
component is placeholder-free. -/
def QInv (b : QueryBuilder) : Prop :=
  (b.query.whereConds.map countQ).sum = b.query.params.length ∧
  (∀ s ∈ b.query.select, countQ s = 0) ∧
  (∀ j ∈ b.query.joins, countQ j.type = 0 ∧ countQ j.table = 0 ∧ countQ j.condition = 0) ∧
  (∀ s ∈ b.query.orderBy, countQ s = 0) ∧
  (∀ s ∈ b.query.groupBy, countQ s = 0) ∧
  countQ b.table = 0 ∧
  (∀ s, b.query.lock = some s → countQ s = 0)

theorem countQ_lit_space : countQ " " = 0 := by decide

theorem countQ_lit_commaSpace : countQ ", " = 0 := by decide

theorem countQ_lit_and : countQ " AND " = 0 := by decide

theorem countQ_lit_whereKw : countQ "WHERE " = 0 := by decide

theorem countQ_lit_comma : countQ "," = 0 := by decide

/-- A fresh builder over a placeholder-free table satisfies the
invariant. -/
theorem QInv_new (t : String) (ht : countQ t = 0) : QInv (QueryBuilder.new t) := by
  refine ⟨rfl, ?_, ?_, ?_, ?_, ht, ?_⟩
  · intro s hs
    rcases List.mem_singleton.mp hs with rfl
    decide
  · intro j hj
    cases hj
  · intro s hs
    cases hs
  · intro s hs
    cases hs
  · intro s hs
    cases hs

theorem countQ_lit_isNull : countQ " IS NULL" = 0 := by decide

theorem countQ_lit_isNotNull : countQ " IS NOT NULL" = 0 := by decide

theorem countQ_lit_eqQ : countQ " = ?" = 1 := by decide

theorem countQ_lit_likeQ : countQ " LIKE ?" = 1 := by decide

theorem countQ_lit_betweenQ : countQ " BETWEEN ? AND ?" = 2 := by decide

theorem countQ_lit_inOpen : countQ " IN (" = 0 := by decide

theorem countQ_lit_notInOpen : countQ " NOT IN (" = 0 := by decide

theorem countQ_lit_close : countQ ")" = 0 := by decide

theorem countQ_lit_q : countQ "?" = 1 := by decide

/-- The placeholder count of the `IN` placeholder run equals the number
of supplied values. -/
theorem countQ_placeholder_run (vs : List Value) :
    countQ (joinSep "," (vs.map fun _ => "?")) = vs.length := by
  rw [countQ_joinSep "," countQ_lit_comma]
  induction vs with
  | nil => rfl
  | cons a rest ih => simp only [List.map_cons, List.sum_cons, ih, countQ_lit_q,
      List.length_cons]; omega

/-- `whereEntry` preserves the renderer invariant when the key is
placeholder-free. -/
theorem whereEntry_inv (t : String) (q : Query) (k : String) (v : Value)
    (hk : countQ k = 0) (h : QInv ⟨t, q⟩) : QInv ⟨t, q.whereEntry k v⟩ := by
  obtain ⟨h1, h2, h3, h4, h5, h6, h7⟩ := h
  unfold Query.whereEntry
  split
  · exact ⟨by simp [countQ_append, hk, countQ_lit_isNull, h1], h2, h3, h4, h5, h6, h7⟩
  · exact ⟨by simp [countQ_append, hk, countQ_lit_eqQ, h1], h2, h3, h4, h5, h6, h7⟩

/-- Folding `whereEntry` over mapping entries preserves the
invariant. -/
theorem whereEntry_foldl_inv (t : String) (es : List (String × Value))
    (hks : ∀ kv ∈ es, countQ kv.1 = 0) :
    ∀ q : Query, QInv ⟨t, q⟩ →
      QInv ⟨t, es.foldl (fun q kv => q.whereEntry kv.1 kv.2) q⟩ := by
  induction es with
  | nil => intro q h; simpa using h
  | cons kv rest ih =>
    intro q h
    simp only [List.foldl_cons]
    exact ih (fun x hx => hks x (by simp [hx]))
      (q.whereEntry kv.1 kv.2)
      (whereEntry_inv t q kv.1 kv.2 (hks kv (by simp)) h)

/-- Appending one WHERE fragment together with parameters matching its
placeholder count preserves the invariant. -/
theorem whereFrag_inv (t : String) (q : Query) (frag : String) (ps : List Value)
    (hfrag : countQ frag = ps.length) (h : QInv ⟨t, q⟩) :
    QInv ⟨t, { q with whereConds := q.whereConds ++ [frag],
                      params := q.params ++ ps }⟩ := by
  obtain ⟨h1, h2, h3, h4, h5, h6, h7⟩ := h
  refine ⟨?_, h2, h3, h4, h5, h6, h7⟩
  simp [h1, hfrag]


/-- Every clause-builder call preserves the renderer invariant when its
arguments are well-formed. -/
theorem applyOp_inv (b : QueryBuilder) (op : Op) (hwf : op.wf = true)
    (h : QInv b) : QInv (applyOp b op) := by
  obtain ⟨t, q⟩ := b
  obtain ⟨h1, h2, h3, h4, h5, h6, h7⟩ := h
  cases op with
  | select f =>
    cases f with
    | str s =>
      dsimp only [applyOp, QueryBuilder.select]
      refine ⟨h1, ?_, h3, h4, h5, h6, h7⟩
      intro x hx
      rcases List.mem_singleton.mp hx with rfl
      simpa [Op.wf, fieldsNoQ, strNoQ] using hwf
    | arr l =>
      dsimp only [applyOp, QueryBuilder.select]
      refine ⟨h1, ?_, h3, h4, h5, h6, h7⟩
      intro x hx
      simp only [Op.wf, fieldsNoQ, List.all_eq_true, strNoQ, beq_iff_eq] at hwf
      exact hwf x hx
  | where_ c v =>
    cases c with
    | field s =>
      have hk : countQ s = 0 := by simpa [Op.wf, condKeysNoQ, strNoQ] using hwf
      exact whereEntry_inv t q s v hk ⟨h1, h2, h3, h4, h5, h6, h7⟩
    | obj es =>
      have hks : ∀ kv ∈ es, countQ kv.1 = 0 := by
        intro kv hkv
        simp only [Op.wf, condKeysNoQ, List.all_eq_true, strNoQ, beq_iff_eq] at hwf
        exact hwf kv hkv
      exact whereEntry_foldl_inv t es hks q ⟨h1, h2, h3, h4, h5, h6, h7⟩
  | orWhere c v =>
    cases c with
    | field s =>
      have hk : countQ s = 0 := by simpa [Op.wf, condKeysNoQ, strNoQ] using hwf
      exact whereEntry_inv t q s v hk ⟨h1, h2, h3, h4, h5, h6, h7⟩
    | obj es =>
      have hks : ∀ kv ∈ es, countQ kv.1 = 0 := by
        intro kv hkv
        simp only [Op.wf, condKeysNoQ, List.all_eq_true, strNoQ, beq_iff_eq] at hwf
        exact hwf kv hkv
      exact whereEntry_foldl_inv t es hks q ⟨h1, h2, h3, h4, h5, h6, h7⟩
  | whereRaw cond ps =>
    have hc : countQ cond = ps.length := by simpa [Op.wf] using hwf
    exact whereFrag_inv t q cond ps hc ⟨h1, h2, h3, h4, h5, h6, h7⟩
  | whereIn f vs =>
    have hf : countQ f = 0 := by simpa [Op.wf, strNoQ] using hwf
    cases vs with
    | none => exact ⟨h1, h2, h3, h4, h5, h6, h7⟩
    | some l =>
      dsimp only [applyOp, QueryBuilder.whereIn]
      by_cases hl : l.length > 0
      · rw [if_pos hl]
        refine whereFrag_inv t q _ l ?_ ⟨h1, h2, h3, h4, h5, h6, h7⟩
        rw [countQ_append, countQ_append, countQ_append, hf, countQ_lit_inOpen,
          countQ_lit_close, countQ_placeholder_run]
        omega
      · rw [if_neg hl]
        exact ⟨h1, h2, h3, h4, h5, h6, h7⟩
  | whereNotIn f vs =>
    have hf : countQ f = 0 := by simpa [Op.wf, strNoQ] using hwf
    cases vs with
    | none => exact ⟨h1, h2, h3, h4, h5, h6, h7⟩
    | some l =>
      dsimp only [applyOp, QueryBuilder.whereNotIn]
      by_cases hl : l.length > 0
      · rw [if_pos hl]
        refine whereFrag_inv t q _ l ?_ ⟨h1, h2, h3, h4, h5, h6, h7⟩
        rw [countQ_append, countQ_append, countQ_append, hf, countQ_lit_notInOpen,
          countQ_lit_close, countQ_placeholder_run]
        omega
      · rw [if_neg hl]
        exact ⟨h1, h2, h3, h4, h5, h6, h7⟩
  | whereBetween f lo hi =>
    have hf : countQ f = 0 := by simpa [Op.wf, strNoQ] using hwf
    dsimp only [applyOp, QueryBuilder.whereBetween]
    by_cases hb : lo ≠ Value.vUndefined ∧ hi ≠ Value.vUndefined
    · rw [if_pos hb]
      refine whereFrag_inv t q _ [lo, hi] ?_ ⟨h1, h2, h3, h4, h5, h6, h7⟩
      rw [countQ_append, hf, countQ_lit_betweenQ]
      rfl
    · rw [if_neg hb]
      exact ⟨h1, h2, h3, h4, h5, h6, h7⟩
  | whereLike f v =>
    have hf : countQ f = 0 := by simpa [Op.wf, strNoQ] using hwf
    dsimp only [applyOp, QueryBuilder.whereLike]
    by_cases hv : v.truthy = true
    · rw [if_pos hv]
      refine whereFrag_inv t q _ [Value.vStr ("%" ++ v.jsToString ++ "%")] ?_
        ⟨h1, h2, h3, h4, h5, h6, h7⟩
      rw [countQ_append, hf, countQ_lit_likeQ]
      rfl
    · rw [if_neg hv]
      exact ⟨h1, h2, h3, h4, h5, h6, h7⟩
  | whereNull f =>
    have hf : countQ f = 0 := by simpa [Op.wf, strNoQ] using hwf
    dsimp only [applyOp, QueryBuilder.whereNull]
    refine ⟨?_, h2, h3, h4, h5, h6, h7⟩
    simp [h1, countQ_append, hf, countQ_lit_isNull]
  | whereNotNull f =>
    have hf : countQ f = 0 := by simpa [Op.wf, strNoQ] using hwf
    dsimp only [applyOp, QueryBuilder.whereNotNull]
    refine ⟨?_, h2, h3, h4, h5, h6, h7⟩
    simp [h1, countQ_append, hf, countQ_lit_isNotNull]
  | orderBy f dir =>
    have hf : countQ f = 0 := by simpa [Op.wf, strNoQ] using hwf
    dsimp only [applyOp, QueryBuilder.orderBy]
    refine ⟨h1, h2, h3, ?_, h5, h6, h7⟩
    intro x hx
    rcases List.mem_append.mp hx with hx | hx
    · exact h4 x hx
    · rcases List.mem_singleton.mp hx with rfl
      by_cases hd : dir.toUpper = "DESC"
      · rw [if_pos hd, countQ_append, countQ_append, hf]
        decide
      · rw [if_neg hd, countQ_append, countQ_append, hf]
        decide
  | groupBy f =>
    cases f with
    | str s =>
      dsimp only [applyOp, QueryBuilder.groupBy]
      refine ⟨h1, h2, h3, h4, ?_, h6, h7⟩
      intro x hx
      rcases List.mem_append.mp hx with hx | hx
      · exact h5 x hx
      · rcases List.mem_singleton.mp hx with rfl
        simpa [Op.wf, fieldsNoQ, strNoQ] using hwf
    | arr l =>
      dsimp only [applyOp, QueryBuilder.groupBy]
      refine ⟨h1, h2, h3, h4, ?_, h6, h7⟩
      intro x hx
      rcases List.mem_append.mp hx with hx | hx
      · exact h5 x hx
      · simp only [Op.wf, fieldsNoQ, List.all_eq_true, strNoQ, beq_iff_eq] at hwf
        exact hwf x hx
  | limit v => exact ⟨h1, h2, h3, h4, h5, h6, h7⟩
  | offset v => exact ⟨h1, h2, h3, h4, h5, h6, h7⟩
  | join tb c ty =>
    dsimp only [applyOp, QueryBuilder.join]
    refine ⟨h1, h2, ?_, h4, h5, h6, h7⟩
    intro j hj
    rcases List.mem_append.mp hj with hj | hj
    · exact h3 j hj
    · rcases List.mem_singleton.mp hj with rfl
      simp only [Op.wf, strNoQ, Bool.and_eq_true, beq_iff_eq] at hwf
      exact ⟨hwf.2, hwf.1.1, hwf.1.2⟩
  | leftJoin tb c =>
    dsimp only [applyOp, QueryBuilder.leftJoin, QueryBuilder.join]
    refine ⟨h1, h2, ?_, h4, h5, h6, h7⟩
    intro j hj
    rcases List.mem_append.mp hj with hj | hj
    · exact h3 j hj
    · rcases List.mem_singleton.mp hj with rfl
      simp only [Op.wf, strNoQ, Bool.and_eq_true, beq_iff_eq] at hwf
      exact ⟨(by decide : countQ "LEFT" = 0), hwf.1, hwf.2⟩
  | innerJoin tb c =>
    dsimp only [applyOp, QueryBuilder.innerJoin, QueryBuilder.join]
    refine ⟨h1, h2, ?_, h4, h5, h6, h7⟩
    intro j hj
    rcases List.mem_append.mp hj with hj | hj
    · exact h3 j hj
    · rcases List.mem_singleton.mp hj with rfl
      simp only [Op.wf, strNoQ, Bool.and_eq_true, beq_iff_eq] at hwf
      exact ⟨(by decide : countQ "INNER" = 0), hwf.1, hwf.2⟩

theorem countQ_lit_selectKw : countQ "SELECT " = 0 := by decide

theorem countQ_lit_distinctKw : countQ "DISTINCT " = 0 := by decide

theorem countQ_lit_fromKw : countQ " FROM " = 0 := by decide

theorem countQ_lit_groupKw : countQ " GROUP BY " = 0 := by decide

theorem countQ_lit_orderKw : countQ " ORDER BY " = 0 := by decide

theorem countQ_lit_limitKw : countQ " LIMIT " = 0 := by decide

theorem countQ_lit_offsetKw : countQ " OFFSET " = 0 := by decide

theorem countQ_lit_joinKw : countQ " JOIN " = 0 := by decide

theorem countQ_lit_onKw : countQ " ON " = 0 := by decide

/-- The WHERE clause carries exactly the placeholders of its
fragments. -/
theorem countQ_buildWhere (b : QueryBuilder) :
    countQ b.buildWhere = (b.query.whereConds.map countQ).sum := by
  unfold QueryBuilder.buildWhere
  split
  · next hlen =>
    rw [List.length_eq_zero.mp hlen]
    decide
  · rw [countQ_append, countQ_lit_whereKw,
      countQ_joinSep " AND " countQ_lit_and]
    omega

/-- The join clause is placeholder-free when every join component
is. -/
theorem countQ_buildJoins (b : QueryBuilder)
    (h3 : ∀ j ∈ b.query.joins,
      countQ j.type = 0 ∧ countQ j.table = 0 ∧ countQ j.condition = 0) :
    countQ b.buildJoins = 0 := by
  unfold QueryBuilder.buildJoins
  split
  · decide
  · refine countQ_joinSep_zero " " countQ_lit_space _ ?_
    intro s hs
    rcases List.mem_map.mp hs with ⟨j, hj, rfl⟩
    obtain ⟨hj1, hj2, hj3⟩ := h3 j hj
    rw [countQ_append, countQ_append, countQ_append, countQ_append,
      hj1, hj2, hj3, countQ_lit_joinKw, countQ_lit_onKw]

set_option maxHeartbeats 1000000 in
/-- Renderer invariant, conclusion: for a builder satisfying the
invariant, the rendered SQL text holds exactly as many placeholders as
the rendered parameter list has elements. -/
theorem countQ_build (b : QueryBuilder) (h : QInv b) :
    countQ b.build.1 = b.build.2.length := by
  have hwc : countQ b.buildWhere = (b.query.whereConds.map countQ).sum :=
    countQ_buildWhere b
  obtain ⟨h1, h2, h3, h4, h5, h6, h7⟩ := h
  have hsel : countQ (joinSep ", " b.query.select) = 0 :=
    countQ_joinSep_zero ", " countQ_lit_commaSpace _ h2
  have hjoins : countQ b.buildJoins = 0 := countQ_buildJoins b h3
  have hgrp : countQ (joinSep ", " b.query.groupBy) = 0 :=
    countQ_joinSep_zero ", " countQ_lit_commaSpace _ h5
  have hord : countQ (joinSep ", " b.query.orderBy) = 0 :=
    countQ_joinSep_zero ", " countQ_lit_commaSpace _ h4
  unfold QueryBuilder.build
  dsimp only
  repeat' split
  all_goals
    simp only [countQ_append, countQ_empty, countQ_lit_selectKw,
      countQ_lit_distinctKw, countQ_lit_fromKw, countQ_lit_groupKw,
      countQ_lit_orderKw, countQ_lit_limitKw, countQ_lit_offsetKw,
      countQ_lit_space, countQ_renderNum, hsel, hjoins, hwc, hgrp, hord, h6]
  all_goals try omega
  all_goals
    try rw [h7 _ (by assumption)]
    try
      have hz : (List.map countQ b.query.whereConds).sum = 0 := by
        rw [← hwc, (show b.buildWhere = "" from by assumption)]
        exact countQ_empty
    omega

/-- The invariant is preserved across any chain of well-formed
calls. -/
theorem applyOps_inv (ops : List Op) :
    ∀ b : QueryBuilder, (∀ op ∈ ops, op.wf = true) → QInv b →
      QInv (applyOps b ops) := by
  induction ops with
  | nil => intro b _ h; exact h
  | cons op rest ih =>
    intro b hwf h
    simp only [applyOps, List.foldl_cons]
    exact ih (applyOp b op) (fun o ho => hwf o (by simp [ho]))
      (applyOp_inv b op (hwf op (by simp)) h)

/-- C1 (counterexample): `whereRaw` is one of the clause-builder calls
the claim ranges over, and a raw fragment may declare more placeholders
than it supplies parameters: after `whereRaw("age > ?", [])` on a fresh
builder the rendered SQL holds one placeholder while the parameter list
is empty, so the claimed k-to-k correspondence fails. -/
theorem whereRaw_arity_mismatch_cex :
    countQ ((QueryBuilder.new "users").whereRaw "age > ?" []).build.1 = 1 ∧
    ((QueryBuilder.new "users").whereRaw "age > ?" []).build.2.length = 0 :=
  ⟨rfl, rfl⟩

/-- C1 (amended): for every chain of clause-builder calls in which each
`whereRaw` fragment declares exactly as many placeholders as it
supplies parameters and every caller-chosen identifier is free of the
placeholder character, the SQL text returned by `build()` holds exactly
k placeholder characters and the returned parameter list has exactly k
elements (each call appends its placeholders and its parameter values
together, so the lists correspond left to right). -/
theorem build_placeholder_param_count (t : String) (ops : List Op)
    (ht : countQ t = 0) (hwf : ∀ op ∈ ops, op.wf = true) :
    countQ (applyOps (QueryBuilder.new t) ops).build.1
      = (applyOps (QueryBuilder.new t) ops).build.2.length :=
  countQ_build _ (applyOps_inv ops _ hwf (QInv_new t ht))

/-- A chain touching every quantified clause builder, used to witness
the amended C1 statement on a closed input. -/
def c1Ops : List Op :=
  [.where_ (.obj [("status", .vStr "active"), ("deleted_at", .vNull)]) .vNull,
   .whereIn "id" (some [.vInt 1, .vInt 2, .vInt 3]),
   .whereNotIn "role" (some [.vStr "admin"]),
   .whereBetween "age" (.vInt 18) (.vInt 65),
   .whereLike "name" (.vStr "john"),
   .whereRaw "LENGTH(name) > ?" [.vInt 5],
   .whereNull "banned_at",
   .leftJoin "profiles" "users.id = profiles.user_id",
   .orderBy "created_at" "desc",
   .groupBy (.str "role"),
   .limit (.vInt 10),
   .offset (.vInt 20)]

/-- C1 witness: the amended statement evaluated on a concrete chain of
twelve clause-builder calls. -/
theorem build_placeholder_param_count_witness :
    countQ (applyOps (QueryBuilder.new "users") c1Ops).build.1
      = (applyOps (QueryBuilder.new "users") c1Ops).build.2.length :=
  build_placeholder_param_count "users" c1Ops (by decide) (by decide)

/-- C5: an equality predicate through `where` renders `field IS NULL`
with no appended parameter when the value is `null`/`undefined`, and
`field = ?` with exactly the one value appended otherwise; the
mapping-object form is the fold of the single-field form over its
entries in order, so the same holds for every entry. -/
theorem where_null_vs_eq (b : QueryBuilder) (f : String) (v : Value)
    (entries : List (String × Value)) :
    ((v = .vNull ∨ v = .vUndefined) →
      (b.where_ (.field f) v).query =
        { b.query with whereConds := b.query.whereConds ++ [f ++ " IS NULL"] }) ∧
    ((v ≠ .vNull ∧ v ≠ .vUndefined) →
      (b.where_ (.field f) v).query =
        { b.query with whereConds := b.query.whereConds ++ [f ++ " = ?"],
                       params := b.query.params ++ [v] }) ∧
    b.where_ (.obj entries) v =
      entries.foldl (fun acc kv => acc.where_ (.field kv.1) kv.2) b := by
  refine ⟨?_, ?_, ?_⟩
  · intro hv
    dsimp only [QueryBuilder.where_]
    unfold Query.whereEntry
    rw [if_pos hv]
  · intro hv
    dsimp only [QueryBuilder.where_]
    unfold Query.whereEntry
    rw [if_neg (by tauto)]
  · induction entries generalizing b with
    | nil => rfl
    | cons kv rest ih =>
      simp only [List.foldl_cons]
      exact ih (b.where_ (.field kv.1) kv.2)

/-- C5 witness: both branches evaluated on concrete inputs through the
theorem. -/
theorem where_null_vs_eq_witness :
    ((QueryBuilder.new "users").where_ (.field "deleted_at") .vNull).query
      = { (QueryBuilder.new "users").query with
            whereConds := (QueryBuilder.new "users").query.whereConds
              ++ ["deleted_at" ++ " IS NULL"] } ∧
    ((QueryBuilder.new "users").where_ (.field "age") (.vInt 30)).query
      = { (QueryBuilder.new "users").query with
            whereConds := (QueryBuilder.new "users").query.whereConds
              ++ ["age" ++ " = ?"],
            params := (QueryBuilder.new "users").query.params ++ [.vInt 30] } :=
  ⟨(where_null_vs_eq (QueryBuilder.new "users") "deleted_at" .vNull []).1
      (Or.inl rfl),
   (where_null_vs_eq (QueryBuilder.new "users") "age" (.vInt 30) []).2.1
      (by decide)⟩

/-- C6: `whereIn`/`whereNotIn` with an empty list leave the builder
value itself unchanged (hence the rendered SQL and parameters are those
of the statement without the call, not an always-false predicate); with
a non-empty list of n values they append one fragment carrying exactly
n placeholders beyond those of the field name, and append the n values
in order. -/
theorem whereIn_empty_identity (b : QueryBuilder) (f : String)
    (vs : List Value) :
    b.whereIn f (some []) = b ∧
    b.whereNotIn f (some []) = b ∧
    (vs ≠ [] →
      (b.whereIn f (some vs)).query =
        { b.query with
            whereConds := b.query.whereConds ++
              [f ++ " IN (" ++ joinSep "," (vs.map fun _ => "?") ++ ")"],
            params := b.query.params ++ vs } ∧
      countQ (f ++ " IN (" ++ joinSep "," (vs.map fun _ => "?") ++ ")")
        = countQ f + vs.length ∧
      (b.whereNotIn f (some vs)).query =
        { b.query with
            whereConds := b.query.whereConds ++
              [f ++ " NOT IN (" ++ joinSep "," (vs.map fun _ => "?") ++ ")"],
            params := b.query.params ++ vs } ∧
      countQ (f ++ " NOT IN (" ++ joinSep "," (vs.map fun _ => "?") ++ ")")
        = countQ f + vs.length) := by
  refine ⟨rfl, rfl, ?_⟩
  intro hvs
  have hlen : vs.length > 0 := List.length_pos.mpr hvs
  refine ⟨?_, ?_, ?_, ?_⟩
  · dsimp only [QueryBuilder.whereIn]
    rw [if_pos hlen]
  · rw [countQ_append, countQ_append, countQ_append, countQ_lit_inOpen,
      countQ_lit_close, countQ_placeholder_run]
    omega
  · dsimp only [QueryBuilder.whereNotIn]
    rw [if_pos hlen]
  · rw [countQ_append, countQ_append, countQ_append, countQ_lit_notInOpen,
      countQ_lit_close, countQ_placeholder_run]
    omega

/-- C6 witness: identity on the empty list and the three-element
rendering, through the theorem at concrete inputs. -/
theorem whereIn_empty_identity_witness :
    (QueryBuilder.new "users").whereIn "id" (some []) = QueryBuilder.new "users" ∧
    ((QueryBuilder.new "users").whereIn "id"
        (some [.vInt 1, .vInt 2, .vInt 3])).query =
      { (QueryBuilder.new "users").query with
          whereConds := (QueryBuilder.new "users").query.whereConds ++
            ["id" ++ " IN (" ++
              joinSep "," (([.vInt 1, .vInt 2, .vInt 3] : List Value).map
                fun _ => "?") ++ ")"],
          params := (QueryBuilder.new "users").query.params ++
            [.vInt 1, .vInt 2, .vInt 3] } :=
  ⟨(whereIn_empty_identity (QueryBuilder.new "users") "id" []).1,
   ((whereIn_empty_identity (QueryBuilder.new "users") "id"
      [.vInt 1, .vInt 2, .vInt 3]).2.2 (by decide)).1⟩

/-- C9 (counterexample): `limit(-5)` silently stores `-5` and
`limit("abc")` silently stores `NaN`; no error is raised at
construction time, so the fail-fast part of the claim is false. -/
theorem limit_negative_stored_cex :
    ((QueryBuilder.new "t").limit (.vInt (-5))).query.limit = some (.int (-5)) ∧
    ((QueryBuilder.new "t").offset (.vInt (-5))).query.offset
      = some (.int (-5)) ∧
    ((QueryBuilder.new "t").limit (.vStr "abc")).query.limit = some .nan :=
  ⟨rfl, rfl, rfl⟩

/-- C9 (amended): `limit(n)`/`offset(n)` coerce the input with
`parseInt` and store the result unconditionally; negative and `NaN`
results are stored silently and nothing fails at construction time. -/
theorem limit_offset_store_parseInt (b : QueryBuilder) (v : Value) :
    (b.limit v).query = { b.query with limit := some (jsParseInt v) } ∧
    (b.offset v).query = { b.query with offset := some (jsParseInt v) } :=
  ⟨rfl, rfl⟩

/-- C10: `whereLike` with a falsy value (null, undefined, NaN, 0, the
empty string, false) leaves the builder unchanged; with a truthy value
it appends the fragment `field LIKE ?` and exactly one parameter, the
value interpolated between percent signs. -/
theorem whereLike_truthy_guard (b : QueryBuilder) (f : String) (v : Value) :
    (v.truthy = false → b.whereLike f v = b) ∧
    (v.truthy = true →
      (b.whereLike f v).query =
        { b.query with
            whereConds := b.query.whereConds ++ [f ++ " LIKE ?"],
            params := b.query.params ++
              [.vStr ("%" ++ v.jsToString ++ "%")] }) := by
  constructor
  · intro hv
    unfold QueryBuilder.whereLike
    rw [if_neg (by simp [hv])]
  · intro hv
    unfold QueryBuilder.whereLike
    rw [if_pos hv]

/-- C10 witness: the empty string leaves the builder unchanged and a
non-empty pattern appends one wrapped parameter, through the theorem at
concrete inputs. -/
theorem whereLike_truthy_guard_witness :
    (QueryBuilder.new "users").whereLike "name" (.vStr "")
      = QueryBuilder.new "users" ∧
    ((QueryBuilder.new "users").whereLike "name" (.vStr "john")).query
      = { (QueryBuilder.new "users").query with
            whereConds := (QueryBuilder.new "users").query.whereConds
              ++ ["name" ++ " LIKE ?"],
            params := (QueryBuilder.new "users").query.params
              ++ [.vStr ("%" ++ Value.jsToString (.vStr "john") ++ "%")] } :=
  ⟨(whereLike_truthy_guard (QueryBuilder.new "users") "name" (.vStr "")).1 rfl,
   (whereLike_truthy_guard (QueryBuilder.new "users") "name"
      (.vStr "john")).2 rfl⟩

/-- An executor that rejects with the exact SQL text it was handed, so
a theorem can observe what reached the connection. -/
def echoExecM : ExecM := fun sql _ => .error (.jsError sql)

/-- C2 (code evaluation at the failing input): `update`/`delete` with an
empty condition mapping raise no ValidationError; the statement —
ending in `WHERE ` with an empty clause — is handed to the connection,
as observed through an executor that echoes the SQL it receives. -/
theorem update_delete_empty_conditions_issue_sql :
    ORM.update (some ()) echoExecM "users" [("name", .vStr "Jane")] []
      = .error (.jsError "UPDATE users SET name = ? WHERE ") ∧
    ORM.delete (some ()) echoExecM "users" []
      = .error (.jsError "DELETE FROM users WHERE ") :=
  ⟨rfl, rfl⟩

/-- C8 (counterexample): `insert` with no pool rejects with the
`TypeError` from reading `promise` of `null`, not with the
uninitialized `Error` the claim names. -/
theorem insert_null_pool_typeerror_cex :
    ORM.insert none echoExecM "users" [("name", .vStr "x")]
      = .error (.jsTypeError nullPoolMsg) ∧
    ORM.insert none echoExecM "users" [("name", .vStr "x")]
      ≠ .error (.jsError uninitMsg) :=
  ⟨rfl, fun h => JsErr.noConfusion (Except.error.inj h)⟩

/-- C8 (amended): before initialization and again after `close()`,
`table` and `query` fail with the uninitialized error; `insert`,
`update` and `delete` also fail, but with the null-pool TypeError
instead; `close()` with no pool is a no-op. -/
theorem uninit_access_behavior (t sql : String) (ps : List Value)
    (data conds : List (String × Value)) (execQ : ExecQ) (execM : ExecM)
    (st : Option Pool) :
    ORM.table none t = .error (.jsError uninitMsg) ∧
    ORM.query none execQ sql ps = .error (.jsError uninitMsg) ∧
    ORM.insert none execM t data = .error (.jsTypeError nullPoolMsg) ∧
    ORM.update none execM t data conds = .error (.jsTypeError nullPoolMsg) ∧
    ORM.delete none execM t conds = .error (.jsTypeError nullPoolMsg) ∧
    ORM.close none = (none, false) ∧
    ORM.table (ORM.close st).1 t = .error (.jsError uninitMsg) ∧
    ORM.query (ORM.close st).1 execQ sql ps = .error (.jsError uninitMsg) := by
  refine ⟨rfl, rfl, rfl, rfl, rfl, rfl, ?_, ?_⟩ <;> cases st <;> rfl

/-- C3: on every outcome combination the dedicated connection is
released exactly once and as the final step; when begin, the callback
and commit all succeed, the callback's value is returned and commit was
invoked with no rollback; when the callback rejects (and rollback
succeeds), rollback is invoked, the callback's error is re-raised and
commit is never reached; when commit rejects (and rollback succeeds),
rollback is invoked and the commit error is re-raised. -/
theorem transaction_lifecycle {E A : Type} (beginO : Except E Unit)
    (cbO : Except E A) (commitO rollbackO : Except E Unit) :
    ((ORM.transaction beginO cbO commitO rollbackO).2.count .releaseTx = 1 ∧
      (ORM.transaction beginO cbO commitO rollbackO).2.getLast?
        = some .releaseTx) ∧
    (∀ v : A, beginO = .ok () → cbO = .ok v → commitO = .ok () →
      (ORM.transaction beginO cbO commitO rollbackO).1 = .ok v ∧
      TxEvent.commitTx ∈ (ORM.transaction beginO cbO commitO rollbackO).2 ∧
      TxEvent.rollbackTx ∉ (ORM.transaction beginO cbO commitO rollbackO).2) ∧
    (∀ e : E, beginO = .ok () → cbO = .error e → rollbackO = .ok () →
      (ORM.transaction beginO cbO commitO rollbackO).1 = .error e ∧
      TxEvent.rollbackTx ∈ (ORM.transaction beginO cbO commitO rollbackO).2 ∧
      TxEvent.commitTx ∉ (ORM.transaction beginO cbO commitO rollbackO).2) ∧
    (∀ (v : A) (e : E), beginO = .ok () → cbO = .ok v → commitO = .error e →
      rollbackO = .ok () →
      (ORM.transaction beginO cbO commitO rollbackO).1 = .error e ∧
      TxEvent.rollbackTx ∈ (ORM.transaction beginO cbO commitO rollbackO).2) := by
  cases beginO <;> cases cbO <;> cases commitO <;> cases rollbackO <;>
    refine ⟨⟨rfl, rfl⟩, ?_, ?_, ?_⟩ <;> intros <;> simp_all [ORM.transaction]

/-- C3 witness: a succeeding transaction returns the callback's value
with a single final release, and a failing callback re-raises its error
after rollback, through the theorem at concrete outcomes. -/
theorem transaction_lifecycle_witness :
    (@ORM.transaction String Nat (.ok ()) (.ok 42) (.ok ()) (.ok ())).1
      = .ok 42 ∧
    (@ORM.transaction String Nat (.ok ()) (.ok 42) (.ok ()) (.ok ())).2.count
      .releaseTx = 1 ∧
    (@ORM.transaction String Nat (.ok ()) (.error "boom") (.ok ())
      (.ok ())).1 = .error "boom" :=
  ⟨((transaction_lifecycle (.ok ()) (.ok 42) (.ok ()) (.ok ())).2.1
      42 rfl rfl rfl).1,
   (transaction_lifecycle (.ok ()) (.ok 42) (.ok ()) (.ok ())).1.1,
   ((transaction_lifecycle (.ok ()) (.error "boom") (.ok ()) (.ok ())).2.2.1
      "boom" rfl rfl rfl).1⟩

/-- An executor whose count query reports a table of 45 rows. -/
def exec45 : ExecQ := fun _ _ => .ok [[("count", Value.vInt 45)]]

/-- C4 (code evaluation at the failing input): the dispatched `paginate`
is the later, async definition (the clause-builder of the same name is
shadowed); called as `paginate(2, 20)` over a 45-row count it rejects
with the Promise TypeError instead of resolving with
`offset=20, limit=20, totalPages=3` — while the shadowed clause-builder
formula would indeed have set `limit=20` and `offset=20`. -/
theorem paginate_shadowing_bug :
    dispatchedPaginate = some .asyncTerminal ∧
    dispatchedPaginate ≠ some .clauseBuilder ∧
    ((QueryBuilder.new "users").paginate (.vInt 2) (.vInt 20) exec45).1
      = .error (.jsTypeError "this.paginate(...).find is not a function") ∧
    ((QueryBuilder.new "users").paginateFirstDef (.vInt 2) (.vInt 20)).query.limit
      = some (.int 20) ∧
    ((QueryBuilder.new "users").paginateFirstDef (.vInt 2)
      (.vInt 20)).query.offset = some (.int 20) :=
  ⟨rfl, by decide, rfl, rfl, rfl⟩

/-- Whether an `Except` settled successfully. -/
def exceptOk : Except ε α → Bool
  | .ok _ => true
  | .error _ => false

/-- A builder that selected two named columns. -/
def bIdName : QueryBuilder :=
  (QueryBuilder.new "users").select (.arr ["id", "name"])

/-- An executor that always rejects, as a missing table would. -/
def failingExec : ExecQ := fun _ _ => .error (.jsError "ER_NO_SUCH_TABLE")

/-- An executor that always resolves with no rows. -/
def okExec : ExecQ := fun _ _ => .ok []

/-- C7 (counterexample): the write-back of the saved column list sits
after the `await` with no `try`/`finally`, so when the execution of
`count()` rejects the builder keeps the substituted aggregate column
list — the claim's "regardless of whether the underlying execution
succeeds or fails" is false. -/
theorem aggregate_select_leak_cex :
    (bIdName.count failingExec).2.query.select = ["COUNT(*) as count"] ∧
    bIdName.query.select = ["id", "name"] ∧
    (bIdName.count failingExec).2 ≠ bIdName :=
  ⟨rfl, rfl, by decide⟩

/-- C7 (amended): when the underlying execution succeeds, `count`,
`sum` and `avg` return the builder exactly as it was — in particular
the previously set column selection is intact, so a subsequent `find()`
still renders the original columns; when the execution rejects, the
aggregate column substitution is left behind. -/
theorem aggregate_restores_select (b : QueryBuilder) (f : String)
    (exec : ExecQ) :
    (exceptOk (b.count exec).1 = true → (b.count exec).2 = b) ∧
    (exceptOk (b.sum f exec).1 = true → (b.sum f exec).2 = b) ∧
    (exceptOk (b.avg f exec).1 = true → (b.avg f exec).2 = b) := by
  refine ⟨?_, ?_, ?_⟩
  · intro h
    unfold QueryBuilder.count at h ⊢
    revert h
    dsimp only
    split
    · intro h
      simp [exceptOk] at h
    · intro _
      split <;> rfl
  · intro h
    unfold QueryBuilder.sum at h ⊢
    revert h
    dsimp only
    split
    · intro h
      simp [exceptOk] at h
    · intro _
      split <;> rfl
  · intro h
    unfold QueryBuilder.avg at h ⊢
    revert h
    dsimp only
    split
    · intro h
      simp [exceptOk] at h
    · intro _
      split <;> rfl

/-- C7 witness: on a succeeding executor the builder that selected
`id, name` is returned untouched by `count`, `sum` and `avg`, through
the theorem at concrete inputs. -/
theorem aggregate_restores_select_witness :
    (bIdName.count okExec).2 = bIdName ∧
    (bIdName.sum "amount" okExec).2 = bIdName ∧
    (bIdName.avg "amount" okExec).2 = bIdName :=
  ⟨(aggregate_restores_select bIdName "amount" okExec).1 rfl,
   (aggregate_restores_select bIdName "amount" okExec).2.1 rfl,
   (aggregate_restores_select bIdName "amount" okExec).2.2 rfl⟩
